import Mathlib

/-!
# Verification of the ToDoApp FastAPI backend

A shallow embedding of the ToDoApp routers (`src/ToDoApp/routers/{auth,todos,
admin,users,address}.py`) and data model (`src/ToDoApp/models.py`).

The persistent store is modelled as lists of records (`Db`); SQLAlchemy's
`query(..).filter(..).first()` becomes `List.filter` followed by `List.head?`;
`.all()` becomes `List.filter`.  A handler that can `raise HTTPException`
returns `Except HTTPError _`; a mutating handler returns the committed store
on success, and an `Except.error` result means the single trailing
`db.commit()` was never reached, so the committed store is the input store
unchanged.

Two leaf collaborators are not part of the repository source and are modelled
from the specification (their doc comments say so): the credential hasher
(passlib bcrypt, spec section 4.1) and the token codec (python-jose JWT,
spec section 4.2).
-/

namespace ToDoApp

/-- `models.py` `User` table: id, unique email/username, names, one-way
password hash, active flag, role string, phone number, optional address FK. -/
structure User where
  id : Int
  email : String
  username : String
  first_name : String
  last_name : String
  hashed_password : String
  is_active : Bool
  role : String
  phone_number : String
  address_id : Option Int
deriving DecidableEq, Repr

/-- `models.py` `ToDo` table: id, owner FK, title, description, priority,
completion flag. -/
structure ToDo where
  id : Int
  owner_id : Int
  title : String
  description : String
  priority : Int
  complete : Bool
deriving DecidableEq, Repr

/-- `models.py` `Address` table. -/
structure Address where
  id : Int
  address1 : String
  address2 : String
  city : String
  state : String
  country : String
  postal_code : String
  apt_num : String
deriving DecidableEq, Repr

/-- The committed persistent store: the three tables. -/
structure Db where
  users : List User
  todos : List ToDo
  addresses : List Address
deriving DecidableEq, Repr

/-- The dict `{"username": .., "id": .., "role": ..}` returned by
`get_current_user` in `routers/auth.py`. -/
structure Identity where
  username : String
  id : Int
  role : String
deriving DecidableEq, Repr

/-- A raised `fastapi.HTTPException`: status code and detail message. -/
structure HTTPError where
  status : Nat
  detail : String
deriving DecidableEq, Repr

/-! ## Credential hasher (spec 4.1) -/

/-- Modelled from the spec: the Credential Hasher (`bcrypt_context` from
passlib, used in `routers/auth.py` and `routers/users.py`) is an external
library, not repository source.  Section 4.1: `hash(plaintext) -> digest`
produces a one-way digest.  Salting is irrelevant to the claims proved here,
so the digest is modelled as a tagged copy of the plaintext. -/
def bhash (plaintext : String) : String := "bcrypt$" ++ plaintext

/-- Modelled from the spec: section 4.1, `verify(plaintext, digest) -> bool`
recomputes and compares; failure yields `false`, not an exception. -/
def bverify (plaintext digest : String) : Bool := digest == bhash plaintext

/-! ## Token codec (spec 4.2) -/

/-- A decoded JWT payload as built in `create_access_token`
(`routers/auth.py`): `{"sub": username, "id": id, "exp": expires,
"role": role}`.  Fields other than `exp` are optional because
`payload.get(..)` in `get_current_user` may find any of them absent in a
foreign token. -/
structure Payload where
  sub : Option String
  id : Option Int
  role : Option String
  exp : Nat
deriving DecidableEq, Repr

/-- Modelled from the spec: a wire token is either a well-formed token signed
with some key, or malformed/tampered (`garbled`).  Section 6: three base64url
segments signed with an HMAC key; tampering makes `parse` fail. -/
inductive Token where
  | signed (key : String) (payload : Payload)
  | garbled
deriving DecidableEq, Repr

/-- Modelled from the spec: `jose.JWTError`, the single failure outcome of
decoding.  Section 4.2: bad signature, malformed structure and expired
timestamp are indistinguishable to the caller. -/
inductive JWTError where
  | invalid
deriving DecidableEq, Repr

/-- `SECRET_KEY` from `routers/auth.py`. -/
def SECRET_KEY : String :=
  "4a1221568c7bee38337d142b1d3033e8ca513f1a74411c65cc787889037ac2cd"

/-- `TOKEN_TTL` from `routers/auth.py`: 30 minutes, in seconds. -/
def TOKEN_TTL : Nat := 30 * 60

/-- Modelled from the spec: `jose.jwt.encode(payload, key, algorithm)` —
produces a token signed with `key` carrying `payload`. -/
def jwtEncode (payload : Payload) (key : String) : Token :=
  Token.signed key payload

/-- Modelled from the spec: `jose.jwt.decode(token, key, algorithms)` at
wall-clock second `now`.  Section 4.2 / section 8: verification fails with the
single `JWTError` on bad signature or malformed structure, succeeds strictly
before expiry and fails at/after expiry. -/
def jwtDecode (token : Token) (key : String) (now : Nat) :
    Except JWTError Payload :=
  match token with
  | Token.garbled => Except.error JWTError.invalid
  | Token.signed k p =>
      if k = key then
        if now < p.exp then Except.ok p else Except.error JWTError.invalid
      else Except.error JWTError.invalid

/-! ## `routers/auth.py` -/

/-- `create_access_token` (`routers/auth.py`): payload
`{"sub": username, "id": id, "exp": utcnow() + expires_delta, "role": role}`
encoded with `SECRET_KEY`.  `now` is `datetime.utcnow()` in epoch seconds,
`expires_delta` the TTL in seconds. -/
def create_access_token (id : Int) (username : String) (role : String)
    (expires_delta : Nat) (now : Nat) : Token :=
  jwtEncode ⟨some username, some id, some role, now + expires_delta⟩ SECRET_KEY

/-- `get_current_user` (`routers/auth.py`): decode the bearer token; on any
`JWTError` the three extracted fields are all `None`; if any of
`sub`/`id`/`role` is `None`, raise 401 "Invalid Credentials"; otherwise
return the identity dict.  The `none` input (no bearer token presented) is
modelled from the spec, section 4.3: the token is extracted at the
framework's bearer-auth boundary and a missing token maps to the same
`Unauthenticated` outcome. -/
def get_current_user (token : Option Token) (now : Nat) :
    Except HTTPError Identity :=
  match token with
  | none => Except.error ⟨401, "Invalid Credentials"⟩
  | some tok =>
      match jwtDecode tok SECRET_KEY now with
      | Except.error _ => Except.error ⟨401, "Invalid Credentials"⟩
      | Except.ok payload =>
          match payload.sub, payload.id, payload.role with
          | some username, some user_id, some role =>
              Except.ok ⟨username, user_id, role⟩
          | _, _, _ => Except.error ⟨401, "Invalid Credentials"⟩

/-- `authenticate_user` (`routers/auth.py`): first user with the given
username, if the password verifies against the stored hash. -/
def authenticate_user (username password : String) (db : Db) : Option User :=
  match (db.users.filter (fun u => u.username == username)).head? with
  | none => none
  | some user =>
      if bverify password user.hashed_password then some user else none

/-- `CreateUserRequest` (`routers/auth.py`). -/
structure CreateUserRequest where
  username : String
  email : String
  first_name : String
  last_name : String
  password : String
  role : String
  phone_number : String
deriving DecidableEq, Repr

/-- Autoincrement primary key for `users`: one more than the largest id. -/
def nextUserId (db : Db) : Int :=
  (db.users.foldl (fun m u => max m u.id) 0) + 1

/-- `create_user` (`routers/auth.py`): builds a `User` row with the request
fields taken verbatim (the password hashed, `is_active=True`, no address) and
commits it. -/
def create_user (db : Db) (req : CreateUserRequest) : Db :=
  { db with
      users := db.users ++
        [{ id := nextUserId db
           email := req.email
           username := req.username
           first_name := req.first_name
           last_name := req.last_name
           hashed_password := bhash req.password
           is_active := true
           role := req.role
           phone_number := req.phone_number
           address_id := none }] }

/-- `login_for_access_token` (`routers/auth.py`): authenticate, then issue a
token with `TOKEN_TTL`; 401 "Invalid Credentials" on failure. -/
def login_for_access_token (username password : String) (db : Db)
    (now : Nat) : Except HTTPError Token :=
  match authenticate_user username password db with
  | some user =>
      Except.ok (create_access_token user.id user.username user.role
        TOKEN_TTL now)
  | none => Except.error ⟨401, "Invalid Credentials"⟩

/-! ## `routers/todos.py`

The handler bodies below receive the `Identity` produced by the
`get_current_user` dependency.  The source's in-body `if user is None` guards
can never fire — the dependency raises instead of returning `None` — so they
have no counterpart here; the full routes (dependency then body) are modelled
further down as `route_*`. -/

/-- `ToDoRequest` (`routers/todos.py`): validated request body. -/
structure ToDoRequest where
  title : String
  description : String
  priority : Int
  complete : Bool
deriving DecidableEq, Repr

/-- `read_all` (`routers/todos.py`): all ToDos whose `owner_id` equals the
caller's id. -/
def read_all (db : Db) (user : Identity) : List ToDo :=
  db.todos.filter (fun t => t.owner_id == user.id)

/-- `read_todo` (`routers/todos.py`): first ToDo matching
`(ToDo.id == id) & (user.get("id") == ToDo.owner_id)`, else 404
"To Do Not Found". -/
def read_todo (db : Db) (user : Identity) (id : Int) :
    Except HTTPError ToDo :=
  match (db.todos.filter
      (fun t => t.id == id && user.id == t.owner_id)).head? with
  | some result => Except.ok result
  | none => Except.error ⟨404, "To Do Not Found"⟩

/-- Autoincrement primary key for `todos`. -/
def nextToDoId (db : Db) : Int :=
  (db.todos.foldl (fun m t => max m t.id) 0) + 1

/-- `create_todo` (`routers/todos.py`): persist the request fields with
`owner_id` set to the caller's id. -/
def create_todo (db : Db) (user : Identity) (req : ToDoRequest) : Db :=
  { db with
      todos := db.todos ++
        [{ id := nextToDoId db
           owner_id := user.id
           title := req.title
           description := req.description
           priority := req.priority
           complete := req.complete }] }

/-- `update_todo` (`routers/todos.py`): ownership-matched lookup
`(ToDo.id == id) & (ToDo.owner_id == user.get("id"))`; 404 "To Do Not Found"
if no match, else overwrite the found row's four mutable fields and commit. -/
def update_todo (db : Db) (user : Identity) (req : ToDoRequest) (id : Int) :
    Except HTTPError Db :=
  match (db.todos.filter
      (fun t => t.id == id && t.owner_id == user.id)).head? with
  | none => Except.error ⟨404, "To Do Not Found"⟩
  | some todo =>
      Except.ok { db with
        todos := db.todos.map (fun t =>
          if t.id == todo.id then
            { t with
                title := req.title
                description := req.description
                priority := req.priority
                complete := req.complete }
          else t) }

/-- `delete_todo` (`routers/todos.py`): same ownership-matched lookup; 404
"To Do Not Found" if no match, else delete the found row (by primary key)
and commit. -/
def delete_todo (db : Db) (user : Identity) (id : Int) :
    Except HTTPError Db :=
  match (db.todos.filter
      (fun t => t.id == id && t.owner_id == user.id)).head? with
  | none => Except.error ⟨404, "To Do Not Found"⟩
  | some record =>
      Except.ok { db with
        todos := db.todos.filter (fun t => !(t.id == record.id)) }

/-! ## `routers/admin.py` -/

/-- `read_all` (`routers/admin.py`): 401 "Invalid Credentials" unless the
caller's role is "admin"; otherwise all ToDos, unfiltered. -/
def admin_read_all (db : Db) (user : Identity) :
    Except HTTPError (List ToDo) :=
  if user.role ≠ "admin" then Except.error ⟨401, "Invalid Credentials"⟩
  else Except.ok db.todos

/-- `delete_todo` (`routers/admin.py`): 401 "Invalid Credentials" unless the
caller's role is "admin" — raised before any query; otherwise look up by id
alone (no owner filter), 404 "To Do Not Found" if absent, else delete and
commit. -/
def admin_delete_todo (db : Db) (user : Identity) (id : Int) :
    Except HTTPError Db :=
  if user.role ≠ "admin" then Except.error ⟨401, "Invalid Credentials"⟩
  else
    match (db.todos.filter (fun t => t.id == id)).head? with
    | none => Except.error ⟨404, "To Do Not Found"⟩
    | some todo =>
        Except.ok { db with
          todos := db.todos.filter (fun t => !(t.id == todo.id)) }

/-! ## `routers/users.py` -/

/-- `get_user` (`routers/users.py`): returns the caller's full stored `User`
row (or `None` if absent) — the whole record, `hashed_password` column
included, is the response body. -/
def get_user (db : Db) (user : Identity) : Option User :=
  (db.users.filter (fun u => u.id == user.id)).head?

/-- `UserVerification` (`routers/users.py`). -/
structure UserVerification where
  password : String
  new_password : String
deriving DecidableEq, Repr

/-- `change_password` (`routers/users.py`): load the caller's row (404 "User
Not Found" if absent); 401 "Incorrect Password" if the supplied `password`
does not verify against the stored hash — raised before any write; otherwise
store the hash of `new_password` and commit. -/
def change_password (db : Db) (user : Identity) (uv : UserVerification) :
    Except HTTPError Db :=
  match (db.users.filter (fun u => u.id == user.id)).head? with
  | none => Except.error ⟨404, "User Not Found"⟩
  | some user_result =>
      if ¬ bverify uv.password user_result.hashed_password then
        Except.error ⟨401, "Incorrect Password"⟩
      else
        Except.ok { db with
          users := db.users.map (fun u =>
            if u.id == user_result.id then
              { u with hashed_password := bhash uv.new_password }
            else u) }

/-! ## `routers/address.py` -/

/-- `AddressRequest` (`routers/address.py`). -/
structure AddressRequest where
  address1 : String
  address2 : String
  city : String
  state : String
  country : String
  postal_code : String
  apt_num : String
deriving DecidableEq, Repr

/-- Autoincrement primary key for `addresses`, assigned at `db.flush()`. -/
def nextAddressId (db : Db) : Int :=
  (db.addresses.foldl (fun m a => max m a.id) 0) + 1

/-- `create_address` (`routers/address.py`): build the Address from the
request, `db.add` + `db.flush()` (the row gets its generated id but nothing
is committed yet), load the caller's `User` row, set its `address_id` foreign
key, and only then issue the single `db.commit()` covering both writes.  If
the caller's row is absent the `user.address_id = ...` attribute access
raises (500) with the session never committed, so the committed store is
unchanged. -/
def create_address (db : Db) (user : Identity) (req : AddressRequest) :
    Except HTTPError (Db × AddressRequest) :=
  let aid := nextAddressId db
  let address : Address :=
    { id := aid
      address1 := req.address1
      address2 := req.address2
      city := req.city
      state := req.state
      country := req.country
      postal_code := req.postal_code
      apt_num := req.apt_num }
  match (db.users.filter (fun u => u.id == user.id)).head? with
  | none => Except.error ⟨500, "Internal Server Error"⟩
  | some u =>
      Except.ok
        ({ db with
            addresses := db.addresses ++ [address]
            users := db.users.map (fun v =>
              if v.id == u.id then { v with address_id := some aid } else v) },
         req)

/-! ## Full routes: dependency resolution then handler body

FastAPI first resolves the `user_dependency` (which runs `get_current_user`
and can raise) and only then runs the handler body; an unauthenticated
request therefore never reaches the body or the store. -/

/-- The `GET /` route of `routers/todos.py`: resolve the identity, then run
`read_all`. -/
def route_read_all (db : Db) (token : Option Token) (now : Nat) :
    Except HTTPError (List ToDo) :=
  (get_current_user token now).map (fun user => read_all db user)

/-- The `DELETE /todo/{id}` route of `routers/todos.py`: resolve the
identity, then run `delete_todo`. -/
def route_delete_todo (db : Db) (token : Option Token) (now : Nat)
    (id : Int) : Except HTTPError Db :=
  (get_current_user token now).bind (fun user => delete_todo db user id)

/-- The statement "the identity resolver never throws": for every inbound
token it returns an identity rather than raising.  (`Except.error` models a
raised `HTTPException`.) -/
def resolverNeverThrows : Prop :=
  ∀ (token : Option Token) (now : Nat),
    ∃ i, get_current_user token now = Except.ok i

/-! ## Helper lemmas -/

/-- If `u` is in `l`, satisfies `p`, and is the only element of `l` satisfying
`p`, then `first()` on the `p`-filtered query returns `u`. -/
theorem head?_filter_unique {α : Type} {l : List α} {p : α → Bool} {u : α}
    (hmem : u ∈ l) (hp : p u = true)
    (huniq : ∀ v ∈ l, p v = true → v = u) :
    (l.filter p).head? = some u := by
  induction l with
  | nil => cases hmem
  | cons a l ih =>
      by_cases ha : p a = true
      · have hau : a = u := huniq a (List.mem_cons_self a l) ha
        simp [List.filter_cons, ha, hau, hp]
      · have ha' : p a = false := by
          cases h : p a with
          | false => rfl
          | true => exact absurd h ha
        rcases List.mem_cons.mp hmem with rfl | hmem'
        · rw [hp] at ha'; cases ha'
        · simp only [List.filter_cons, ha', Bool.false_eq_true, if_neg,
            ite_false]
          exact ih hmem' (fun v hv hpv =>
            huniq v (List.mem_cons_of_mem a hv) hpv)

/-- Every failure of the identity resolver is the single
401 "Invalid Credentials" outcome, and every success returns exactly the
`sub`/`id`/`role` fields of a payload signed with `SECRET_KEY` and not yet
expired. -/
theorem get_current_user_spec (token : Option Token) (now : Nat) :
    get_current_user token now = Except.error ⟨401, "Invalid Credentials"⟩ ∨
    ∃ p : Payload, token = some (Token.signed SECRET_KEY p) ∧ now < p.exp ∧
      ∃ (username : String) (uid : Int) (role : String),
        p.sub = some username ∧ p.id = some uid ∧ p.role = some role ∧
        get_current_user token now = Except.ok ⟨username, uid, role⟩ := by
  match token with
  | none => exact Or.inl rfl
  | some Token.garbled => exact Or.inl rfl
  | some (Token.signed k p) =>
      by_cases hk : k = SECRET_KEY
      · subst hk
        by_cases hexp : now < p.exp
        · match hsub : p.sub, hid : p.id, hrole : p.role with
          | some username, some uid, some role =>
              refine Or.inr ⟨p, rfl, hexp, username, uid, role, hsub, hid,
                hrole, ?_⟩
              simp [get_current_user, jwtDecode, hexp, hsub, hid, hrole]
          | none, _, _ =>
              exact Or.inl (by simp [get_current_user, jwtDecode, hexp, hsub])
          | some _, none, _ =>
              exact Or.inl
                (by simp [get_current_user, jwtDecode, hexp, hsub, hid])
          | some _, some _, none =>
              exact Or.inl
                (by simp [get_current_user, jwtDecode, hexp, hsub, hid, hrole])
        · exact Or.inl (by simp [get_current_user, jwtDecode, hexp])
      · exact Or.inl (by simp [get_current_user, jwtDecode, hk])

/-! ## Claim theorems -/

/-- C1: for every non-admin identity A, `read_all` (GET "/",
`routers/todos.py`) returns only ToDos whose `owner_id` equals A's account
id; it never returns a ToDo owned by a different account. -/
theorem C1_read_all_owner_scoped (db : Db) (A : Identity)
    (hA : A.role ≠ "admin") (t : ToDo) (ht : t ∈ read_all db A) :
    t.owner_id = A.id := by
  simp only [read_all, List.mem_filter, beq_iff_eq] at ht
  exact ht.2

/-- Witness for C1 at a concrete store: the single ToDo owned by account 1
is returned to the non-admin identity with account id 1, and its owner is
account 1. -/
theorem C1_read_all_owner_scoped_witness :
    (⟨"alice", 1, "user"⟩ : Identity).role ≠ "admin" ∧
    (⟨1, 1, "buy milk", "", 1, false⟩ : ToDo) ∈
      read_all ⟨[], [⟨1, 1, "buy milk", "", 1, false⟩], []⟩
        ⟨"alice", 1, "user"⟩ ∧
    (⟨1, 1, "buy milk", "", 1, false⟩ : ToDo).owner_id =
      (⟨"alice", 1, "user"⟩ : Identity).id :=
  ⟨by decide, by decide,
    C1_read_all_owner_scoped ⟨[], [⟨1, 1, "buy milk", "", 1, false⟩], []⟩
      ⟨"alice", 1, "user"⟩ (by decide) ⟨1, 1, "buy milk", "", 1, false⟩
      (by decide)⟩

/-- C2: for a non-admin identity A and a ToDo `t` owned by a different
account, `read_todo`, `update_todo` and `delete_todo` (`routers/todos.py`)
all fail with 404 "To Do Not Found" — the same outcome as when no ToDo with
that id exists — rather than returning, mutating or deleting the record
(`Except.error` means the handler raised before its `db.commit()`, so the
committed store is unchanged). -/
theorem C2_cross_owner_not_found (db : Db) (A : Identity) (t : ToDo)
    (tid : Int) (req : ToDoRequest)
    (hmem : t ∈ db.todos) (hid : t.id = tid) (hown : t.owner_id ≠ A.id)
    (huniq : ∀ s ∈ db.todos, s.id = tid → s.owner_id = t.owner_id) :
    read_todo db A tid = Except.error ⟨404, "To Do Not Found"⟩ ∧
    update_todo db A req tid = Except.error ⟨404, "To Do Not Found"⟩ ∧
    delete_todo db A tid = Except.error ⟨404, "To Do Not Found"⟩ := by
  have hnone : ∀ s ∈ db.todos, ¬(s.id = tid ∧ s.owner_id = A.id) := by
    intro s hs ⟨hsid, hsown⟩
    exact hown ((huniq s hs hsid) ▸ hsown)
  have hf1 : db.todos.filter
      (fun s => s.id == tid && A.id == s.owner_id) = [] := by
    rw [List.filter_eq_nil_iff]
    intro s hs
    simp only [Bool.and_eq_true, beq_iff_eq, not_and]
    intro hsid hsown
    exact hnone s hs ⟨hsid, hsown.symm⟩
  have hf2 : db.todos.filter
      (fun s => s.id == tid && s.owner_id == A.id) = [] := by
    rw [List.filter_eq_nil_iff]
    intro s hs
    simp only [Bool.and_eq_true, beq_iff_eq, not_and]
    intro hsid hsown
    exact hnone s hs ⟨hsid, hsown⟩
  refine ⟨?_, ?_, ?_⟩
  · simp [read_todo, hf1]
  · simp [update_todo, hf2]
  · simp [delete_todo, hf2]

/-- Witness for C2 at a concrete store: the only ToDo with id 1 is owned by
account 2, and identity "alice" (account 1) gets 404 "To Do Not Found" from
all three handlers. -/
theorem C2_cross_owner_not_found_witness :
    read_todo ⟨[], [⟨1, 2, "secret", "", 1, false⟩], []⟩
      ⟨"alice", 1, "user"⟩ 1 = Except.error ⟨404, "To Do Not Found"⟩ ∧
    update_todo ⟨[], [⟨1, 2, "secret", "", 1, false⟩], []⟩
      ⟨"alice", 1, "user"⟩ ⟨"t", "d", 1, false⟩ 1 =
      Except.error ⟨404, "To Do Not Found"⟩ ∧
    delete_todo ⟨[], [⟨1, 2, "secret", "", 1, false⟩], []⟩
      ⟨"alice", 1, "user"⟩ 1 = Except.error ⟨404, "To Do Not Found"⟩ :=
  C2_cross_owner_not_found ⟨[], [⟨1, 2, "secret", "", 1, false⟩], []⟩
    ⟨"alice", 1, "user"⟩ ⟨1, 2, "secret", "", 1, false⟩ 1 ⟨"t", "d", 1, false⟩
    (by decide) (by decide) (by decide) (by decide)

/-- C4: the identity resolver maps every parse failure — missing token,
garbled token, wrong signing key, expired timestamp, or any of the
`sub`/`id`/`role` fields absent — to the one outcome
401 "Invalid Credentials", and on success returns exactly the handle,
account id and role carried by the token's payload. -/
theorem C4_resolver_single_failure_outcome (token : Option Token)
    (now : Nat) :
    get_current_user token now = Except.error ⟨401, "Invalid Credentials"⟩ ∨
    ∃ p : Payload, token = some (Token.signed SECRET_KEY p) ∧ now < p.exp ∧
      ∃ (username : String) (uid : Int) (role : String),
        p.sub = some username ∧ p.id = some uid ∧ p.role = some role ∧
        get_current_user token now = Except.ok ⟨username, uid, role⟩ :=
  get_current_user_spec token now

/-- C5: a token issued by `create_access_token` at time `t0` with
time-to-live `T` resolves successfully at every instant strictly before
`t0 + T` (returning exactly the issued identity) and fails with
401 "Invalid Credentials" at every instant at or after `t0 + T`. -/
theorem C5_token_ttl_boundary (id : Int) (username role : String)
    (T t0 t : Nat) :
    get_current_user (some (create_access_token id username role T t0)) t =
      (if t < t0 + T then Except.ok ⟨username, id, role⟩
       else Except.error ⟨401, "Invalid Credentials"⟩) := by
  by_cases h : t < t0 + T
  · simp [get_current_user, create_access_token, jwtEncode, jwtDecode, h]
  · simp [get_current_user, create_access_token, jwtEncode, jwtDecode, h]

/-- C3: `change_password` (`routers/users.py`) with a wrong old password
fails with 401 "Incorrect Password" and, the handler having raised before
its `db.commit()`, the committed store is the unchanged input store — so
`authenticate_user` (login) with the real old password still succeeds
against it; with the correct old password the caller's stored hash is
replaced by the hash of the new password. -/
theorem C3_change_password_atomic (db : Db) (A : Identity) (u : User)
    (oldPlain wrongPlain newPlain : String)
    (hmem : u ∈ db.users) (hid : u.id = A.id)
    (huniq : ∀ v ∈ db.users, v.id = A.id → v = u)
    (husername : ∀ v ∈ db.users, v.username = u.username → v = u)
    (hold : bverify oldPlain u.hashed_password = true)
    (hwrong : bverify wrongPlain u.hashed_password = false) :
    change_password db A ⟨wrongPlain, newPlain⟩ =
      Except.error ⟨401, "Incorrect Password"⟩ ∧
    authenticate_user u.username oldPlain db = some u ∧
    change_password db A ⟨oldPlain, newPlain⟩ =
      Except.ok { db with
        users := db.users.map (fun v =>
          if v.id == u.id then { v with hashed_password := bhash newPlain }
          else v) } ∧
    { u with hashed_password := bhash newPlain } ∈
      db.users.map (fun v =>
        if v.id == u.id then { v with hashed_password := bhash newPlain }
        else v) := by
  have hhead : (db.users.filter (fun v => v.id == A.id)).head? = some u :=
    head?_filter_unique hmem (by simp [hid])
      (fun v hv hpv => huniq v hv (by simpa using hpv))
  have hheadu : (db.users.filter
      (fun v => v.username == u.username)).head? = some u :=
    head?_filter_unique hmem (by simp)
      (fun v hv hpv => husername v hv (by simpa using hpv))
  refine ⟨?_, ?_, ?_, ?_⟩
  · simp [change_password, hhead, hwrong]
  · simp [authenticate_user, hheadu, hold]
  · simp [change_password, hhead, hold, hid]
  · exact List.mem_map.mpr ⟨u, hmem, by simp⟩

/-- Witness for C3 at a concrete store: account "alice" (id 1, password
"pw1"); a change request carrying the wrong old password "bad" is rejected
with 401 "Incorrect Password", login with "pw1" still succeeds, and a
request carrying the correct old password commits the new hash. -/
theorem C3_change_password_atomic_witness :
    change_password
        ⟨[⟨1, "e", "alice", "f", "l", bhash "pw1", true, "user", "p", none⟩],
         [], []⟩
        ⟨"alice", 1, "user"⟩ ⟨"bad", "pw2"⟩ =
      Except.error ⟨401, "Incorrect Password"⟩ ∧
    authenticate_user "alice" "pw1"
        ⟨[⟨1, "e", "alice", "f", "l", bhash "pw1", true, "user", "p", none⟩],
         [], []⟩ =
      some ⟨1, "e", "alice", "f", "l", bhash "pw1", true, "user", "p", none⟩ := by
  have h := C3_change_password_atomic
    ⟨[⟨1, "e", "alice", "f", "l", bhash "pw1", true, "user", "p", none⟩],
     [], []⟩
    ⟨"alice", 1, "user"⟩
    ⟨1, "e", "alice", "f", "l", bhash "pw1", true, "user", "p", none⟩
    "pw1" "bad" "pw2" (by decide) (by decide) (by decide) (by decide)
    (by decide) (by decide)
  exact ⟨h.1, h.2.1⟩

/-- C6: an admin identity deleting via `DELETE /admin/todo/{id}`
(`routers/admin.py`) removes a ToDo owned by a different account, while any
non-admin identity is rejected with 401 "Invalid Credentials" regardless of
the store's contents — the role gate raises before the lookup, so no
404 existence signal is produced. -/
theorem C6_admin_delete_overrides_ownership (db : Db) (A : Identity)
    (t : ToDo) (tid : Int)
    (hadmin : A.role = "admin") (hmem : t ∈ db.todos) (hid : t.id = tid)
    (hown : t.owner_id ≠ A.id)
    (huniq : ∀ s ∈ db.todos, s.id = tid → s = t) :
    admin_delete_todo db A tid =
      Except.ok { db with
        todos := db.todos.filter (fun s => !(s.id == t.id)) } ∧
    t ∉ db.todos.filter (fun s => !(s.id == t.id)) ∧
    ∀ B : Identity, B.role ≠ "admin" → ∀ db2 : Db,
      admin_delete_todo db2 B tid =
        Except.error ⟨401, "Invalid Credentials"⟩ := by
  have hhead : (db.todos.filter (fun s => s.id == tid)).head? = some t :=
    head?_filter_unique hmem (by simp [hid])
      (fun v hv hpv => huniq v hv (by simpa using hpv))
  refine ⟨?_, ?_, ?_⟩
  · simp [admin_delete_todo, hadmin, hhead]
  · simp [List.mem_filter]
  · intro B hB db2
    simp [admin_delete_todo, hB]

/-- Witness for C6 at a concrete store: admin "boss" (account 9) deletes the
ToDo with id 1 owned by account 2; non-admin "alice" gets
401 "Invalid Credentials" from the same route even on an empty store (no
404). -/
theorem C6_admin_delete_overrides_ownership_witness :
    admin_delete_todo ⟨[], [⟨1, 2, "x", "", 1, false⟩], []⟩
      ⟨"boss", 9, "admin"⟩ 1 = Except.ok ⟨[], [], []⟩ ∧
    admin_delete_todo ⟨[], [], []⟩ ⟨"alice", 1, "user"⟩ 1 =
      Except.error ⟨401, "Invalid Credentials"⟩ := by
  have h := C6_admin_delete_overrides_ownership
    ⟨[], [⟨1, 2, "x", "", 1, false⟩], []⟩ ⟨"boss", 9, "admin"⟩
    ⟨1, 2, "x", "", 1, false⟩ 1 (by decide) (by decide) (by decide)
    (by decide) (by decide)
  exact ⟨h.1, h.2.2 ⟨"alice", 1, "user"⟩ (by decide) ⟨[], [], []⟩⟩

/-- C7: `create_address` (`routers/address.py`) commits the new Address row
and the caller's `address_id` link as one unit — either it fails with the
session never committed (the committed store is the unchanged input store),
or the committed store contains both the new Address (with its generated id)
and the caller's account referencing exactly that id. -/
theorem C7_create_address_atomic (db : Db) (A : Identity)
    (req : AddressRequest) :
    create_address db A req = Except.error ⟨500, "Internal Server Error"⟩ ∨
    ∃ db2, create_address db A req = Except.ok (db2, req) ∧
      db2.addresses = db.addresses ++
        [⟨nextAddressId db, req.address1, req.address2, req.city, req.state,
          req.country, req.postal_code, req.apt_num⟩] ∧
      ∃ u ∈ db2.users, u.id = A.id ∧
        u.address_id = some (nextAddressId db) := by
  cases hhead : (db.users.filter (fun v => v.id == A.id)).head? with
  | none => exact Or.inl (by simp [create_address, hhead])
  | some u0 =>
      have hu0 : u0 ∈ db.users ∧ (u0.id == A.id) = true :=
        List.mem_filter.mp
          (List.mem_of_mem_head? (Option.mem_def.mpr hhead))
      refine Or.inr ⟨{ db with
          addresses := db.addresses ++
            [⟨nextAddressId db, req.address1, req.address2, req.city,
              req.state, req.country, req.postal_code, req.apt_num⟩]
          users := db.users.map (fun v =>
            if v.id == u0.id then
              { v with address_id := some (nextAddressId db) }
            else v) }, ?_, rfl, ?_⟩
      · simp [create_address, hhead]
      · refine ⟨{ u0 with address_id := some (nextAddressId db) },
          List.mem_map.mpr ⟨u0, hu0.1, by simp⟩, ?_, rfl⟩
        simpa using hu0.2

/-- C8, as stated, is false: the identity resolver does throw — it raises
the 401 "Invalid Credentials" `HTTPException` itself instead of returning an
`Unauthenticated` value for a handler to check.  Counterexample: a request
with no bearer token. -/
theorem C8_resolver_never_throws_cex : ¬ resolverNeverThrows := by
  intro h
  obtain ⟨i, hi⟩ := h none 0
  exact absurd hi (by simp [get_current_user])

/-- C8 (amended): the resolver signals every unauthenticated request by
raising exactly 401 "Invalid Credentials", and since FastAPI resolves the
dependency before running the handler body, every identity-requiring route
returns exactly that 401 on an unauthenticated request with no store
operation performed (the route's result is the resolver's error, and for
mutating routes no new store is produced). -/
theorem C8_unauthenticated_request_rejected (db : Db)
    (token : Option Token) (now : Nat) (id : Int)
    (h : ∀ i, get_current_user token now ≠ Except.ok i) :
    get_current_user token now =
      Except.error ⟨401, "Invalid Credentials"⟩ ∧
    route_read_all db token now =
      Except.error ⟨401, "Invalid Credentials"⟩ ∧
    route_delete_todo db token now id =
      Except.error ⟨401, "Invalid Credentials"⟩ := by
  have herr : get_current_user token now =
      Except.error ⟨401, "Invalid Credentials"⟩ := by
    rcases get_current_user_spec token now with he |
      ⟨p, _, _, username, uid, role, _, _, _, hok⟩
    · exact he
    · exact absurd hok (h _)
  exact ⟨herr, by simp [route_read_all, herr, Except.map],
    by simp [route_delete_todo, herr, Except.bind]⟩

/-- Witness for C8 (amended): a request with no bearer token against a
store holding one ToDo gets 401 "Invalid Credentials" from both routes. -/
theorem C8_unauthenticated_request_rejected_witness :
    get_current_user none 0 = Except.error ⟨401, "Invalid Credentials"⟩ ∧
    route_read_all ⟨[], [⟨1, 1, "x", "", 1, false⟩], []⟩ none 0 =
      Except.error ⟨401, "Invalid Credentials"⟩ ∧
    route_delete_todo ⟨[], [⟨1, 1, "x", "", 1, false⟩], []⟩ none 0 1 =
      Except.error ⟨401, "Invalid Credentials"⟩ :=
  C8_unauthenticated_request_rejected ⟨[], [⟨1, 1, "x", "", 1, false⟩], []⟩
    none 0 1 (fun i => by simp [get_current_user])

/-- C9: `create_user` (`routers/auth.py`) stores the request's `role` field
verbatim, so an unauthenticated caller registering with role "admin" obtains
an account whose role is "admin"; login then issues a token for that role,
the resolver accepts it, and the resulting identity passes the role gate of
both `/admin` endpoints (it is never rejected with their
401 "Invalid Credentials"). -/
theorem C9_self_registered_admin (db : Db) (req : CreateUserRequest)
    (u : User) (t0 t : Nat) (tid : Int)
    (hrole : req.role = "admin")
    (hfresh : ∀ v ∈ db.users, v.username ≠ req.username)
    (ht : t < t0 + TOKEN_TTL)
    (hu : u = { id := nextUserId db, email := req.email,
                username := req.username, first_name := req.first_name,
                last_name := req.last_name,
                hashed_password := bhash req.password, is_active := true,
                role := req.role, phone_number := req.phone_number,
                address_id := none }) :
    u ∈ (create_user db req).users ∧ u.role = "admin" ∧
    login_for_access_token req.username req.password (create_user db req)
        t0 =
      Except.ok (create_access_token u.id req.username "admin" TOKEN_TTL
        t0) ∧
    get_current_user
        (some (create_access_token u.id req.username "admin" TOKEN_TTL t0))
        t =
      Except.ok ⟨req.username, u.id, "admin"⟩ ∧
    (∀ db2 : Db, admin_read_all db2 ⟨req.username, u.id, "admin"⟩ =
      Except.ok db2.todos) ∧
    ∀ db2 : Db, admin_delete_todo db2 ⟨req.username, u.id, "admin"⟩ tid ≠
      Except.error ⟨401, "Invalid Credentials"⟩ := by
  subst hu
  have hfilter : ((create_user db req).users.filter
      (fun v => v.username == req.username)) =
      [{ id := nextUserId db, email := req.email, username := req.username,
         first_name := req.first_name, last_name := req.last_name,
         hashed_password := bhash req.password, is_active := true,
         role := req.role, phone_number := req.phone_number,
         address_id := none }] := by
    simp only [create_user]
    rw [List.filter_append,
      List.filter_eq_nil_iff.mpr (fun v hv => by simp [hfresh v hv])]
    simp
  have hauth : authenticate_user req.username req.password
      (create_user db req) =
      some { id := nextUserId db, email := req.email,
             username := req.username, first_name := req.first_name,
             last_name := req.last_name,
             hashed_password := bhash req.password, is_active := true,
             role := req.role, phone_number := req.phone_number,
             address_id := none } := by
    simp [authenticate_user, hfilter, bverify]
  refine ⟨by simp [create_user], hrole, ?_, ?_, ?_, ?_⟩
  · simp [login_for_access_token, hauth, hrole]
  · simp [get_current_user, create_access_token, jwtEncode, jwtDecode, ht]
  · intro db2
    simp [admin_read_all]
  · intro db2
    simp only [admin_delete_todo]
    rw [if_neg (by simp)]
    cases h2 : (db2.todos.filter (fun s => s.id == tid)).head? with
    | none => simp [h2]
    | some todo => simp [h2]

/-- Witness for C9: on an empty store, registering "eve" with role "admin"
creates an admin account (id 1); her login token resolves to an admin
identity which reads every ToDo through `/admin/todo` and is not rejected
by the admin delete gate. -/
theorem C9_self_registered_admin_witness :
    (⟨1, "e", "eve", "f", "l", bhash "pw", true, "admin", "p", none⟩ :
        User) ∈
      (create_user ⟨[], [], []⟩
        ⟨"eve", "e", "f", "l", "pw", "admin", "p"⟩).users ∧
    get_current_user (some (create_access_token 1 "eve" "admin" TOKEN_TTL 0))
        1 =
      Except.ok ⟨"eve", 1, "admin"⟩ ∧
    admin_read_all ⟨[], [⟨1, 7, "x", "", 1, false⟩], []⟩ ⟨"eve", 1, "admin"⟩ =
      Except.ok [⟨1, 7, "x", "", 1, false⟩] ∧
    admin_delete_todo ⟨[], [], []⟩ ⟨"eve", 1, "admin"⟩ 1 ≠
      Except.error ⟨401, "Invalid Credentials"⟩ := by
  have h := C9_self_registered_admin ⟨[], [], []⟩
    ⟨"eve", "e", "f", "l", "pw", "admin", "p"⟩
    ⟨1, "e", "eve", "f", "l", bhash "pw", true, "admin", "p", none⟩
    0 1 1 (by decide) (by decide) (by decide) (by decide)
  exact ⟨h.1, h.2.2.2.1, h.2.2.2.2.1 ⟨[], [⟨1, 7, "x", "", 1, false⟩], []⟩,
    h.2.2.2.2.2 ⟨[], [], []⟩⟩

/-- C10: `get_user` (GET /user, `routers/users.py`) returns the caller's
full stored `User` record, so the response body carries the
`hashed_password` column — the stored password digest. -/
theorem C10_get_user_exposes_password_hash (db : Db) (A : Identity)
    (u : User)
    (hmem : u ∈ db.users) (hid : u.id = A.id)
    (huniq : ∀ v ∈ db.users, v.id = A.id → v = u) :
    get_user db A = some u ∧
    (get_user db A).map User.hashed_password = some u.hashed_password := by
  have hhead : (db.users.filter (fun v => v.id == A.id)).head? = some u :=
    head?_filter_unique hmem (by simp [hid])
      (fun v hv hpv => huniq v hv (by simpa using hpv))
  refine ⟨by simp [get_user, hhead], by simp [get_user, hhead]⟩

/-- Witness for C10 at a concrete store: the response for "alice" is her
full record and its `hashed_password` field is her stored digest. -/
theorem C10_get_user_exposes_password_hash_witness :
    get_user
        ⟨[⟨1, "e", "alice", "f", "l", bhash "pw1", true, "user", "p", none⟩],
         [], []⟩
        ⟨"alice", 1, "user"⟩ =
      some ⟨1, "e", "alice", "f", "l", bhash "pw1", true, "user", "p",
        none⟩ ∧
    (get_user
        ⟨[⟨1, "e", "alice", "f", "l", bhash "pw1", true, "user", "p", none⟩],
         [], []⟩
        ⟨"alice", 1, "user"⟩).map User.hashed_password =
      some (bhash "pw1") :=
  C10_get_user_exposes_password_hash
    ⟨[⟨1, "e", "alice", "f", "l", bhash "pw1", true, "user", "p", none⟩],
     [], []⟩
    ⟨"alice", 1, "user"⟩
    ⟨1, "e", "alice", "f", "l", bhash "pw1", true, "user", "p", none⟩
    (by decide) (by decide) (by decide)

end ToDoApp
